import Mathlib

/-!
Verification of the AWS sign-in utility (`go/aws/main.go`) from the
gitpod-io/example-idp-integration repository.

The program is a linear CLI: it tries an ordered list of sign-in methods
(`signinWithGitpod`, `signinWithGitpodVerbose`, `signinWithSSO`) until one
succeeds.  We embed it shallowly: every interaction with the outside world
(environment variables, `exec.LookPath`, subprocess execution, the two HTTP
calls, `url.Parse`, `time.Now`, Go map iteration order, and the AWS profile
store) is an input supplied by a `World` value, and each sign-in function is
a pure Lean function from a `World` to its result together with the trace of
externally visible effects it performs.
-/

namespace IdpAws

/-- Result of a Go `exec.Cmd.CombinedOutput()` call: the combined
stdout\x2bstderr text, and `some msg` when the process exited non-zero
(the message of the non-nil `error` value). -/
structure CmdResult where
  out : String
  exitErr : Option String
deriving DecidableEq, Repr

/-- The outcome of running `json.Decoder.Decode` on an HTTP response body
against the Go struct `struct \x7b Token string \x7d`: either the body is not
well-formed JSON (decode returns an error with this message), or it decodes
and the `token` field equals `token` (the zero value `""` when absent). -/
inductive JsonTokenBody where
  | malformed (msg : String)
  | tokenObj (token : String)
deriving DecidableEq, Repr

/-- Outcome of a Go `http.Client` request: either a transport-level error
(connection failure, timeout, ...), in which case the returned `error` is
non-nil, or a response carrying a status code and a body.  Note that a
non-2xx status is NOT an error for `http.Client`. -/
inductive HttpOutcome where
  | transportError (msg : String)
  | response (status : Nat) (body : JsonTokenBody)
deriving DecidableEq, Repr

/-- The nested `Credentials` object parsed from the output of
`aws sts assume-role-with-web-identity`. -/
structure Credentials where
  accessKeyId : String
  secretAccessKey : String
  sessionToken : String
deriving DecidableEq, Repr

/-- Outcome of the `aws sts assume-role-with-web-identity` invocation:
combined output, exit error, and the result of `json.Unmarshal` applied to
that output (supplied by the world alongside the raw text, since the claims
never depend on JSON parsing internals). -/
structure StsOutcome where
  out : String
  exitErr : Option String
  parsed : Except String Credentials
deriving Repr

/-- The AWS profile store written by `aws configure set`, modelled as a
partial map from configuration key to value (for the fixed profile
`default`, the only one the program uses). -/
def Store : Type := String → Option String

/-- One `aws configure set` success updates the store at one key. -/
def storeSet (st : Store) (k v : String) : Store :=
  fun q => if q = k then some v else st q

/-- All the inputs the program reads from its environment, plus the
behaviour of every external system it touches. -/
structure World where
  /-- `os.Getenv "GITPOD_WORKSPACE_URL"` (`""` when unset). -/
  gitpodWorkspaceURL : String
  /-- `os.Getenv "IDP_AWS_ROLE_ARN"`. -/
  idpAwsRoleArn : String
  /-- `os.Getenv "SUPERVISOR_ADDR"`. -/
  supervisorAddr : String
  /-- `os.Getenv "GITPOD_HOST"`. -/
  gitpodHost : String
  /-- `os.Getenv "GITPOD_WORKSPACE_ID"`. -/
  gitpodWorkspaceID : String
  /-- Result of `exec.LookPath "gp"`: the resolved path, `""` if absent. -/
  gpPath : String
  /-- Result of `url.Parse gitpodHost`: error message, or the `.Host`
  component of the parsed URL. -/
  urlParseResult : Except String String
  /-- Outcome of the step-1 GET to the supervisor metadata endpoint. -/
  getResult : HttpOutcome
  /-- Outcome of the step-2 POST to the identity-provider endpoint. -/
  postResult : HttpOutcome
  /-- Outcome of `gp idp login aws`. -/
  gpLoginResult : CmdResult
  /-- Outcome of `aws sts assume-role-with-web-identity`. -/
  stsResult : StsOutcome
  /-- Outcome of `aws configure set --profile default k v`, keyed by `k`. -/
  setResult : String → CmdResult
  /-- `time.Now().Unix()`. -/
  timeNowUnix : Int
  /-- Go map iteration order over the credentials map (Go randomises it;
  any permutation of the three keys can occur). -/
  iterOrder : List String
  /-- The profile store before the program runs. -/
  initStore : Store

/-- Go error values as built by this program: `base` is a leaf error
(from the runtime or a library), `wrap pre inner post` is
`fmt.Errorf` with a `%w` verb, whose message is
`pre ++ inner.message ++ post` and which unwraps to `inner`. -/
inductive GoError where
  | base (msg : String)
  | wrap (pre : String) (inner : GoError) (post : String)
deriving DecidableEq, Repr

/-- The `Error()` string of a Go error value. -/
def GoError.message : GoError → String
  | .base m => m
  | .wrap pre inner post => pre ++ inner.message ++ post

/-- `errors.Unwrap`. -/
def GoError.unwrap : GoError → Option GoError
  | .base _ => none
  | .wrap _ inner _ => some inner

/-- Externally visible effects, in program order: a write to standard
error, an HTTP GET, the bearer-authenticated HTTP POST (with the workspace
id and audience list of its JSON body), or a subprocess invocation. -/
inductive Effect where
  | stderrMsg (s : String)
  | httpGet (url : String)
  | httpPost (url : String) (auth : String) (workspaceId : String) (audience : List String)
  | execCmd (name : String) (args : List String)
deriving DecidableEq, Repr

/-- What one sign-in attempt produces: the `(didSignIn, err)` pair it
returns, the effect trace it performed, and the profile store afterwards. -/
structure AttemptOut where
  didSignIn : Bool
  err : Option GoError
  trace : List Effect
  store : Store

/-- The instructional message printed when `IDP_AWS_ROLE_ARN` is unset. -/
def oidcSetupMsg : String :=
  "Running in a Gitpod workspace, but the IDP_AWS_ROLE_ARN environment variable is not set.\nPlease setup OIDC trust (https://www.gitpod.io/docs/integrations/aws) and set the IDP_AWS_ROLE_ARN environment variable on your project\n\n"

/-- The final failure message of `main`. -/
def failMsg : String :=
  "don\x27t know how to sign in - I\x27ve tried everythin 🤷\n"

/-- `runningInGitpod` (main.go lines 214-222): true when
`GITPOD_WORKSPACE_URL` is non-empty and `gp` resolves on `PATH`. -/
def runningInGitpod (w : World) : Bool :=
  if w.gitpodWorkspaceURL = "" then false
  else if w.gpPath = "" then false
  else true

/-- `signinWithGitpod` (main.go lines 95-110). -/
def signinWithGitpod (w : World) : AttemptOut :=
  if !runningInGitpod w then ⟨false, none, [], w.initStore⟩
  else if w.idpAwsRoleArn = "" then
    ⟨false, none, [.stderrMsg oidcSetupMsg], w.initStore⟩
  else
    match w.gpLoginResult.exitErr with
    | some e =>
      ⟨false,
       some (.wrap ("gp idp login failure: " ++ w.gpLoginResult.out ++ ": ") (.base e) ""),
       [.execCmd "gp" ["idp", "login", "aws"]], w.initStore⟩
    | none => ⟨true, none, [.execCmd "gp" ["idp", "login", "aws"]], w.initStore⟩

/-- `signinWithSSO` (main.go lines 224-227): a deliberate no-op. -/
def signinWithSSO (w : World) : AttemptOut :=
  ⟨false, none, [], w.initStore⟩

/-- The effect of one `aws configure set --profile default k v` call
(main.go line 204). -/
def setEffect (k v : String) : Effect :=
  .execCmd "aws" ["configure", "set", "--profile", "default", k, v]

/-- The `for k, v := range vars` loop of step 4 (main.go lines 203-209):
runs `aws configure set` for each pair in iteration order; a non-zero exit
returns `fmt.Errorf("%w: %s", err, out)` and stops; a success writes the
key and continues. -/
def setLoop (w : World) : List (String × String) → Store → Option GoError × List Effect × Store
  | [], store => (none, [], store)
  | (k, v) :: rest, store =>
    match (w.setResult k).exitErr with
    | some e =>
      (some (.wrap "" (.base e) (": " ++ (w.setResult k).out)), [setEffect k v], store)
    | none =>
      let res := setLoop w rest (storeSet store k v)
      (res.1, setEffect k v :: res.2.1, res.2.2)

/-- The `vars` map literal of step 4 (main.go lines 198-202), as the
association list of its three entries. -/
def varsOf (creds : Credentials) : List (String × String) :=
  [("aws_access_key_id", creds.accessKeyId),
   ("aws_secret_access_key", creds.secretAccessKey),
   ("aws_session_token", creds.sessionToken)]

/-- The key/value pairs Go map iteration yields, in the iteration order the
world chose: each key of `iterOrder` paired with its value in `vars`. -/
def pairsOf (w : World) (creds : Credentials) : List (String × String) :=
  w.iterOrder.filterMap fun k => ((varsOf creds).lookup k).map fun v => (k, v)

/-- The argument list of `aws sts assume-role-with-web-identity`
(main.go line 180). -/
def stsArgs (roleARN sessionName token : String) : List String :=
  ["sts", "assume-role-with-web-identity", "--role-arn", roleARN,
   "--role-session-name", sessionName, "--web-identity-token", token]

/-- `signinWithGitpodVerbose` (main.go lines 115-212), translated
statement by statement.  Of note: line 174 decodes the step-2 response
body into `tkn` — the variable already holding the step-1 supervisor
token — and not into `idtkn`; `idtkn.Token` therefore keeps its zero
value `""`, which is what line 180 passes as `--web-identity-token`.
The model mirrors this: `idtknToken` is bound to `""` and the decoded
step-2 token `t2` is bound to a fresh (unused) name, exactly as the
source leaves `idtkn` untouched. -/
def signinWithGitpodVerbose (w : World) : AttemptOut :=
  if !runningInGitpod w then ⟨false, none, [], w.initStore⟩
  else
    let roleARN := w.idpAwsRoleArn
    if roleARN = "" then ⟨false, none, [.stderrMsg oidcSetupMsg], w.initStore⟩
    else
      match w.urlParseResult with
      | .error m =>
        ⟨false, some (.wrap "invalid Gitpod host url: " (.base m) ""), [], w.initStore⟩
      | .ok host =>
        let getUrl := "http://" ++ w.supervisorAddr ++ "/_supervisor/v1/token/gitpod/" ++ host ++ "/"
        match w.getResult with
        | .transportError m =>
          ⟨false, some (.wrap "cannot get gitpod token: " (.base m) ""),
           [.httpGet getUrl], w.initStore⟩
        | .response _ body1 =>
          match body1 with
          | .malformed m =>
            ⟨false, some (.wrap "cannot decode gitpod token: " (.base m) ""),
             [.httpGet getUrl], w.initStore⟩
          | .tokenObj t1 =>
            let postUrl := "https://api." ++ host ++ "/gitpod.experimental.v1.IdentityProviderService/GetIDToken"
            let postEff := Effect.httpPost postUrl ("Bearer " ++ t1) w.gitpodWorkspaceID ["sts.amazonaws.com"]
            match w.postResult with
            | .transportError m =>
              ⟨false, some (.wrap "cannot make ID token request: " (.base m) ""),
               [.httpGet getUrl, postEff], w.initStore⟩
            | .response _ body2 =>
              let idtknToken := ""
              match body2 with
              | .malformed m =>
                ⟨false, some (.wrap "cannot decode ID token response: " (.base m) ""),
                 [.httpGet getUrl, postEff], w.initStore⟩
              | .tokenObj _t2 =>
                let sessionName := w.gitpodWorkspaceID ++ "-" ++ toString w.timeNowUnix
                let cmdEff := Effect.execCmd "aws" (stsArgs roleARN sessionName idtknToken)
                match w.stsResult.exitErr with
                | some e =>
                  ⟨false, some (.wrap "" (.base e) (": " ++ w.stsResult.out)),
                   [.httpGet getUrl, postEff, cmdEff], w.initStore⟩
                | none =>
                  match w.stsResult.parsed with
                  | .error m =>
                    ⟨false, some (.base m), [.httpGet getUrl, postEff, cmdEff], w.initStore⟩
                  | .ok creds =>
                    let res := setLoop w (pairsOf w creds) w.initStore
                    match res.1 with
                    | some e =>
                      ⟨false, some e, [.httpGet getUrl, postEff, cmdEff] ++ res.2.1, res.2.2⟩
                    | none =>
                      ⟨true, none, [.httpGet getUrl, postEff, cmdEff] ++ res.2.1, res.2.2⟩

/-- One log line of the dispatcher (main.go line 88). -/
def errLogOf (e : GoError) : Effect :=
  .stderrMsg ("error while logging in: " ++ e.message ++ "\n")

/-- The stderr lines the dispatcher emits for a run of failed attempts. -/
def errLogs (rs : List (Bool × Option GoError)) : List Effect :=
  rs.filterMap fun p => p.2.map errLogOf

/-- The dispatcher loop of `main` (main.go lines 82-92) over the outcomes
of the attempts in list order: returns how many attempts were invoked and
the stderr effects emitted.  A success returns immediately; an error is
logged and the next attempt tried; exhaustion prints the final failure
message (line 92). -/
def dispatchLoop : List (Bool × Option GoError) → Nat × List Effect
  | [] => (0, [.stderrMsg failMsg])
  | (d, e) :: rest =>
    if d then (1, [])
    else
      let logs : List Effect := match e with
        | some ge => [errLogOf ge]
        | none => []
      let r := dispatchLoop rest
      (r.1 + 1, logs ++ r.2)

/-- `main` (main.go lines 76-93): runs the three sign-in methods in their
fixed order, logging attempt errors, and prints the final failure message
when none succeeds.  The first component is the process exit status: `main`
never calls `os.Exit`, so the Go runtime exits with status 0 on every path. -/
def mainRun (w : World) : Nat × List Effect :=
  let a1 := signinWithGitpod w
  if a1.didSignIn then (0, a1.trace)
  else
    let l1 : List Effect := match a1.err with
      | some e => [errLogOf e]
      | none => []
    let a2 := signinWithGitpodVerbose w
    if a2.didSignIn then (0, a1.trace ++ l1 ++ a2.trace)
    else
      let l2 : List Effect := match a2.err with
        | some e => [errLogOf e]
        | none => []
      let a3 := signinWithSSO w
      if a3.didSignIn then (0, a1.trace ++ l1 ++ a2.trace ++ l2 ++ a3.trace)
      else
        let l3 : List Effect := match a3.err with
          | some e => [errLogOf e]
          | none => []
        (0, a1.trace ++ l1 ++ a2.trace ++ l2 ++ a3.trace ++ l3 ++ [.stderrMsg failMsg])

/-- Extracts the argument tails of the `aws configure set` invocations from
an effect trace. -/
def setCmds (tr : List Effect) : List (List String) :=
  tr.filterMap fun e =>
    match e with
    | .execCmd "aws" ("configure" :: "set" :: rest) => some rest
    | _ => none

/-- Effects of the steps that follow metadata-token retrieval in the
verbose flow: the identity-token POST and every subprocess invocation
(credential exchange, profile writes). -/
def isLaterStep : Effect → Bool
  | .httpPost _ _ _ _ => true
  | .execCmd _ _ => true
  | _ => false

/-- A fully healthy environment: running in Gitpod, role ARN set, all
external calls succeed.  Concrete worlds for individual claims are
variations of this one. -/
def baseWorld : World where
  gitpodWorkspaceURL := "https://ws-abc.gitpod.example.org"
  idpAwsRoleArn := "arn:aws:iam::123456789012:role/demo"
  supervisorAddr := "localhost:22999"
  gitpodHost := "https://gitpod.example.org"
  gitpodWorkspaceID := "ws-abc"
  gpPath := "/usr/bin/gp"
  urlParseResult := .ok "gitpod.example.org"
  getResult := .response 200 (.tokenObj "supervisor-token-1")
  postResult := .response 200 (.tokenObj "id-token-123")
  gpLoginResult := { out := "", exitErr := none }
  stsResult := { out := "credsjson", exitErr := none,
                 parsed := .ok { accessKeyId := "AKIA1", secretAccessKey := "SECRET1",
                                 sessionToken := "SESS1" } }
  setResult := fun _ => { out := "", exitErr := none }
  timeNowUnix := 5
  iterOrder := ["aws_access_key_id", "aws_secret_access_key", "aws_session_token"]
  initStore := fun _ => none

/-- World for C5: the `gp` helper is not resolvable on `PATH`. -/
def w5 : World := { baseWorld with gpPath := "" }

/-- World for C6: in Gitpod, but `IDP_AWS_ROLE_ARN` is unset. -/
def w6 : World := { baseWorld with idpAwsRoleArn := "" }

/-- World for C7: `gp idp login aws` exits non-zero. -/
def w7 : World :=
  { baseWorld with gpLoginResult := { out := "login blew up", exitErr := some "exit status 1" } }

/-- C5: when the `GITPOD_WORKSPACE_URL` marker is empty or `gp` is not on
`PATH`, both Gitpod-based attempts return `(false, nil)` and perform no
external calls. -/
theorem c5_not_in_gitpod_no_attempt (w : World)
    (h : w.gitpodWorkspaceURL = "" ∨ w.gpPath = "") :
    signinWithGitpod w = ⟨false, none, [], w.initStore⟩ ∧
    signinWithGitpodVerbose w = ⟨false, none, [], w.initStore⟩ := by
  have hr : runningInGitpod w = false := by
    rcases h with h | h <;> simp [runningInGitpod, h]
  exact ⟨by simp [signinWithGitpod, hr], by simp [signinWithGitpodVerbose, hr]⟩

/-- C5 witness: concrete instance with `gp` missing from `PATH`. -/
theorem c5_witness :
    (w5.gitpodWorkspaceURL = "" ∨ w5.gpPath = "") ∧
    signinWithGitpod w5 = ⟨false, none, [], w5.initStore⟩ ∧
    signinWithGitpodVerbose w5 = ⟨false, none, [], w5.initStore⟩ :=
  ⟨Or.inr rfl, (c5_not_in_gitpod_no_attempt w5 (Or.inr rfl)).1,
   (c5_not_in_gitpod_no_attempt w5 (Or.inr rfl)).2⟩

/-- C6: marker and helper present but `IDP_AWS_ROLE_ARN` unset: both
Gitpod-based attempts return `(false, nil)` and the trace is exactly one
stderr write of the instructional OIDC-setup message. -/
theorem c6_missing_role_arn_message_once (w : World)
    (hm : w.gitpodWorkspaceURL ≠ "") (hp : w.gpPath ≠ "")
    (hrole : w.idpAwsRoleArn = "") :
    signinWithGitpod w = ⟨false, none, [.stderrMsg oidcSetupMsg], w.initStore⟩ ∧
    signinWithGitpodVerbose w = ⟨false, none, [.stderrMsg oidcSetupMsg], w.initStore⟩ := by
  have hr : runningInGitpod w = true := by simp [runningInGitpod, hm, hp]
  exact ⟨by simp [signinWithGitpod, hr, hrole],
         by simp [signinWithGitpodVerbose, hr, hrole]⟩

/-- C6 witness: concrete instance with the role ARN unset. -/
theorem c6_witness :
    w6.idpAwsRoleArn = "" ∧
    signinWithGitpod w6 = ⟨false, none, [.stderrMsg oidcSetupMsg], w6.initStore⟩ ∧
    signinWithGitpodVerbose w6 = ⟨false, none, [.stderrMsg oidcSetupMsg], w6.initStore⟩ :=
  ⟨rfl,
   (c6_missing_role_arn_message_once w6 (by decide) (by decide) rfl).1,
   (c6_missing_role_arn_message_once w6 (by decide) (by decide) rfl).2⟩

/-- C7: when `gp idp login aws` exits non-zero, `signinWithGitpod` returns
`didSignIn = false` with a single error whose message contains the combined
output and which wraps the underlying execution error. -/
theorem c7_gp_login_failure_wrapped (w : World)
    (hm : w.gitpodWorkspaceURL ≠ "") (hp : w.gpPath ≠ "")
    (hrole : w.idpAwsRoleArn ≠ "") (e : String)
    (he : w.gpLoginResult.exitErr = some e) :
    (signinWithGitpod w).didSignIn = false ∧
    ∃ ge, (signinWithGitpod w).err = some ge ∧
      (∃ a b, ge.message = a ++ w.gpLoginResult.out ++ b) ∧
      ge.unwrap = some (.base e) := by
  have hr : runningInGitpod w = true := by simp [runningInGitpod, hm, hp]
  refine ⟨by simp [signinWithGitpod, hr, hrole, he], ?_⟩
  refine ⟨.wrap ("gp idp login failure: " ++ w.gpLoginResult.out ++ ": ") (.base e) "",
          by simp [signinWithGitpod, hr, hrole, he], ?_, rfl⟩
  exact ⟨"gp idp login failure: ", ": " ++ e, by
    simp [GoError.message, String.append_assoc]⟩

/-- C7 witness: concrete failing `gp idp login aws` invocation. -/
theorem c7_witness :
    w7.gpLoginResult.exitErr = some "exit status 1" ∧
    ((signinWithGitpod w7).didSignIn = false ∧
      ∃ ge, (signinWithGitpod w7).err = some ge ∧
        (∃ a b, ge.message = a ++ w7.gpLoginResult.out ++ b) ∧
        ge.unwrap = some (.base "exit status 1")) :=
  ⟨rfl, c7_gp_login_failure_wrapped w7 (by decide) (by decide) (by decide)
          "exit status 1" rfl⟩

/-- C8: `signinWithSSO` always returns `(false, nil)`, performs no effects
and leaves the profile store unchanged. -/
theorem c8_sso_always_noop (w : World) :
    signinWithSSO w = ⟨false, none, [], w.initStore⟩ := rfl

/-- World for C1: a healthy run whose step-2 identity-provider response
carries the token `id-token-123`. -/
def w1 : World := baseWorld

/-- C1: the claim fails on the code.  In `w1` the step-2 response decodes
to the token `id-token-123`, the run reaches step 3 — but the
`--web-identity-token` argument of the `aws sts` invocation is `""`, not
`id-token-123`, because line 174 decodes the step-2 body into `tkn`
instead of `idtkn` and `idtkn.Token` keeps its zero value. -/
theorem c1_web_identity_token_is_empty :
    w1.postResult = .response 200 (.tokenObj "id-token-123") ∧
    Effect.execCmd "aws" (stsArgs w1.idpAwsRoleArn "ws-abc-5" "")
      ∈ (signinWithGitpodVerbose w1).trace ∧
    Effect.execCmd "aws" (stsArgs w1.idpAwsRoleArn "ws-abc-5" "id-token-123")
      ∉ (signinWithGitpodVerbose w1).trace := by
  decide

/-- World for the C2 counterexample: the metadata GET answers with status
500 but a well-formed JSON body. -/
def w2 : World := { baseWorld with getResult := .response 500 (.tokenObj "supervisor-token-1") }

/-- World for the C2 amended-claim witness: the metadata GET answers with
a malformed body. -/
def w2m : World := { baseWorld with getResult := .response 200 (.malformed "invalid character") }

/-- C2 counterexample: the code never inspects the HTTP status code, so a
non-2xx (500) metadata response with a well-formed JSON body does not fail
the attempt: the later steps still run (the identity-token POST is in the
trace) and the attempt even succeeds with no error. -/
theorem c2_counterexample_non2xx_continues :
    w2.getResult = .response 500 (.tokenObj "supervisor-token-1") ∧
    (signinWithGitpodVerbose w2).didSignIn = true ∧
    (signinWithGitpodVerbose w2).err = none ∧
    (signinWithGitpodVerbose w2).trace.filter isLaterStep ≠ [] := by
  decide

/-- C2 (amended): when metadata-token retrieval fails — the GET fails at
the transport level or its body is malformed JSON — none of the later
steps run (no POST, no subprocess), the store is untouched, and the
attempt returns `(false, wrapped error)`. -/
theorem c2_metadata_failure_aborts (w : World)
    (hrun : runningInGitpod w = true) (hrole : w.idpAwsRoleArn ≠ "")
    (hfail : (∃ m, w.getResult = .transportError m) ∨
             (∃ s m, w.getResult = .response s (.malformed m))) :
    (signinWithGitpodVerbose w).didSignIn = false ∧
    (∃ p i s, (signinWithGitpodVerbose w).err = some (.wrap p i s)) ∧
    (∀ e ∈ (signinWithGitpodVerbose w).trace, isLaterStep e = false) ∧
    (signinWithGitpodVerbose w).store = w.initStore := by
  rcases hup : w.urlParseResult with mu | host
  · have hred : signinWithGitpodVerbose w =
        ⟨false, some (.wrap "invalid Gitpod host url: " (.base mu) ""), [], w.initStore⟩ := by
      simp [signinWithGitpodVerbose, hrun, hrole, hup]
    rw [hred]
    exact ⟨rfl, ⟨_, _, _, rfl⟩, by simp, rfl⟩
  · rcases hfail with ⟨m, hm⟩ | ⟨s, m, hm⟩
    · have hred : signinWithGitpodVerbose w =
          ⟨false, some (.wrap "cannot get gitpod token: " (.base m) ""),
           [.httpGet ("http://" ++ w.supervisorAddr ++ "/_supervisor/v1/token/gitpod/" ++ host ++ "/")],
           w.initStore⟩ := by
        simp [signinWithGitpodVerbose, hrun, hrole, hup, hm]
      rw [hred]
      exact ⟨rfl, ⟨_, _, _, rfl⟩, by simp [isLaterStep], rfl⟩
    · have hred : signinWithGitpodVerbose w =
          ⟨false, some (.wrap "cannot decode gitpod token: " (.base m) ""),
           [.httpGet ("http://" ++ w.supervisorAddr ++ "/_supervisor/v1/token/gitpod/" ++ host ++ "/")],
           w.initStore⟩ := by
        simp [signinWithGitpodVerbose, hrun, hrole, hup, hm]
      rw [hred]
      exact ⟨rfl, ⟨_, _, _, rfl⟩, by simp [isLaterStep], rfl⟩

/-- C2 witness: concrete malformed metadata body aborts the attempt. -/
theorem c2_witness :
    (∃ s m, w2m.getResult = HttpOutcome.response s (.malformed m)) ∧
    ((signinWithGitpodVerbose w2m).didSignIn = false ∧
      (∃ p i s, (signinWithGitpodVerbose w2m).err = some (.wrap p i s)) ∧
      (∀ e ∈ (signinWithGitpodVerbose w2m).trace, isLaterStep e = false) ∧
      (signinWithGitpodVerbose w2m).store = w2m.initStore) :=
  ⟨⟨200, "invalid character", rfl⟩,
   c2_metadata_failure_aborts w2m rfl (by decide)
     (Or.inr ⟨200, "invalid character", rfl⟩)⟩

/-- C3: the dispatcher tries attempts in list order.  If the attempts
before the first successful one all fail, exactly those attempts plus the
successful one are invoked (the attempts after it never run, and the final
failure message is not printed), and every failed attempt that returned an
error was logged; if no attempt succeeds, all are invoked once and the
final failure message is printed after the error logs. -/
theorem c3_dispatcher_first_success :
    (∀ (pre post : List (Bool × Option GoError)) (e : Option GoError),
      (∀ p ∈ pre, p.1 = false) →
      dispatchLoop (pre ++ (true, e) :: post) = (pre.length + 1, errLogs pre)) ∧
    (∀ rs : List (Bool × Option GoError), (∀ p ∈ rs, p.1 = false) →
      dispatchLoop rs = (rs.length, errLogs rs ++ [.stderrMsg failMsg])) := by
  constructor
  · intro pre post e hpre
    induction pre with
    | nil => simp [dispatchLoop, errLogs]
    | cons hd tl ih =>
      obtain ⟨d, oe⟩ := hd
      have hd0 : d = false := hpre (d, oe) (List.mem_cons_self _ _)
      subst hd0
      have htl : ∀ p ∈ tl, p.1 = false := fun p hp => hpre p (List.mem_cons_of_mem _ hp)
      cases oe <;>
        simp [dispatchLoop, ih htl, errLogs, Nat.add_comm, Nat.add_assoc]
  · intro rs hrs
    induction rs with
    | nil => simp [dispatchLoop, errLogs]
    | cons hd tl ih =>
      obtain ⟨d, oe⟩ := hd
      have hd0 : d = false := hrs (d, oe) (List.mem_cons_self _ _)
      subst hd0
      have htl : ∀ p ∈ tl, p.1 = false := fun p hp => hrs p (List.mem_cons_of_mem _ hp)
      cases oe <;>
        simp [dispatchLoop, ih htl, errLogs, Nat.add_comm]

/-- C3 witness: a failing-with-error attempt, then a success, then an
attempt that must never run; and separately a run where every attempt
fails. -/
theorem c3_witness :
    (∀ p ∈ [((false : Bool), some (GoError.base "e1"))], p.1 = false) ∧
    dispatchLoop ([((false : Bool), some (GoError.base "e1"))] ++
        (true, none) :: [(false, none)]) =
      (2, errLogs [((false : Bool), some (GoError.base "e1"))]) ∧
    dispatchLoop [((false : Bool), (none : Option GoError))] =
      (1, errLogs [((false : Bool), (none : Option GoError))] ++ [.stderrMsg failMsg]) :=
  ⟨by decide,
   c3_dispatcher_first_success.1 [((false : Bool), some (GoError.base "e1"))]
     [(false, none)] none (by decide),
   c3_dispatcher_first_success.2 [((false : Bool), (none : Option GoError))] (by decide)⟩

/-- World for C9: `gp` is missing from `PATH`, so every sign-in method
fails and `main` exhausts its list. -/
def w9 : World := { baseWorld with gpPath := "" }

/-- C9: when every sign-in method fails, `main` prints the final failure
message as its last stderr effect and the process exits with the
process-default success status 0 (`main` returns normally and never calls
`os.Exit`). -/
theorem c9_exhaustion_exits_zero (w : World)
    (h1 : (signinWithGitpod w).didSignIn = false)
    (h2 : (signinWithGitpodVerbose w).didSignIn = false) :
    (mainRun w).1 = 0 ∧ (mainRun w).2.getLast? = some (.stderrMsg failMsg) := by
  refine ⟨by simp [mainRun, h1, h2, signinWithSSO], ?_⟩
  simp only [mainRun, h1, h2, signinWithSSO, Bool.false_eq_true, if_false]
  exact List.getLast?_concat _

/-- C9 witness: concrete environment where all methods fail. -/
theorem c9_witness :
    (signinWithGitpod w9).didSignIn = false ∧
    (signinWithGitpodVerbose w9).didSignIn = false ∧
    ((mainRun w9).1 = 0 ∧ (mainRun w9).2.getLast? = some (.stderrMsg failMsg)) :=
  ⟨rfl, rfl, c9_exhaustion_exits_zero w9 rfl rfl⟩

/-- When every `aws configure set` call succeeds, the step-4 loop performs
one invocation per pair, returns no error, and folds every write into the
store. -/
lemma setLoop_all_ok (w : World) :
    ∀ (pairs : List (String × String)) (st : Store),
      (∀ p ∈ pairs, (w.setResult p.1).exitErr = none) →
      setLoop w pairs st =
        (none, pairs.map (fun p => setEffect p.1 p.2),
         pairs.foldl (fun s p => storeSet s p.1 p.2) st) := by
  intro pairs
  induction pairs with
  | nil => intro st _; rfl
  | cons hd tl ih =>
    intro st h
    obtain ⟨k, v⟩ := hd
    have hk : (w.setResult k).exitErr = none := h (k, v) (List.mem_cons_self _ _)
    have htl : ∀ p ∈ tl, (w.setResult p.1).exitErr = none :=
      fun p hp => h p (List.mem_cons_of_mem _ hp)
    simp [setLoop, hk, ih (storeSet st k v) htl]

/-- When the pairs before `(bk, bv)` succeed and `bk` fails, the step-4
loop stops at `bk` with the wrapped error, having performed only the
earlier invocations plus the failing one, and keeps the earlier writes. -/
lemma setLoop_fails (w : World) (bk bv e : String)
    (hbad : (w.setResult bk).exitErr = some e) :
    ∀ (done rest : List (String × String)) (st : Store),
      (∀ p ∈ done, (w.setResult p.1).exitErr = none) →
      setLoop w (done ++ (bk, bv) :: rest) st =
        (some (.wrap "" (.base e) (": " ++ (w.setResult bk).out)),
         done.map (fun p => setEffect p.1 p.2) ++ [setEffect bk bv],
         done.foldl (fun s p => storeSet s p.1 p.2) st) := by
  intro done
  induction done with
  | nil => intro rest st _; simp [setLoop, hbad]
  | cons hd tl ih =>
    intro rest st h
    obtain ⟨k, v⟩ := hd
    have hk : (w.setResult k).exitErr = none := h (k, v) (List.mem_cons_self _ _)
    have htl : ∀ p ∈ tl, (w.setResult p.1).exitErr = none :=
      fun p hp => h p (List.mem_cons_of_mem _ hp)
    simp [setLoop, hk, ih rest (storeSet st k v) htl]

/-- A key not written by the fold keeps its previous value. -/
lemma foldl_storeSet_not_mem :
    ∀ (pairs : List (String × String)) (st : Store) (k : String),
      k ∉ pairs.map Prod.fst →
      (pairs.foldl (fun s p => storeSet s p.1 p.2) st) k = st k := by
  intro pairs
  induction pairs with
  | nil => intro st k _; rfl
  | cons hd tl ih =>
    intro st k h
    simp only [List.map_cons, List.mem_cons] at h
    push_neg at h
    simp only [List.foldl_cons]
    rw [ih _ _ h.2]
    simp [storeSet, h.1]

/-- With pairwise-distinct keys, the fold writes every pair. -/
lemma foldl_storeSet_mem :
    ∀ (pairs : List (String × String)) (st : Store) (k v : String),
      (pairs.map Prod.fst).Nodup → (k, v) ∈ pairs →
      (pairs.foldl (fun s p => storeSet s p.1 p.2) st) k = some v := by
  intro pairs
  induction pairs with
  | nil => intro st k v _ hm; cases hm
  | cons hd tl ih =>
    intro st k v hnd hm
    simp only [List.map_cons, List.nodup_cons] at hnd
    rcases List.mem_cons.mp hm with heq | hm'
    · subst heq
      simp only [List.foldl_cons]
      rw [foldl_storeSet_not_mem tl _ k (by simpa using hnd.1)]
      simp [storeSet]
    · simp only [List.foldl_cons]
      exact ih _ k v hnd.2 hm'

/-- `setCmds` splits over appends. -/
lemma setCmds_append (l1 l2 : List Effect) :
    setCmds (l1 ++ l2) = setCmds l1 ++ setCmds l2 :=
  List.filterMap_append _ _ _

/-- The three effects preceding step 4 contribute no `configure set`
invocation. -/
lemma setCmds_pre3 (u1 u2 b wsid : String) (aud : List String) (roleARN sess tok : String) :
    setCmds [.httpGet u1, .httpPost u2 b wsid aud, .execCmd "aws" (stsArgs roleARN sess tok)] = [] :=
  rfl

/-- A single `configure set` effect yields its argument tail. -/
lemma setCmds_setEffect_singleton (k v : String) :
    setCmds [setEffect k v] = [["--profile", "default", k, v]] := rfl

/-- The step-4 invocations are exactly the pair list rendered as
`--profile default k v` argument tails. -/
lemma setCmds_map_setEffect (pairs : List (String × String)) :
    setCmds (pairs.map fun p => setEffect p.1 p.2) =
      pairs.map fun p => ["--profile", "default", p.1, p.2] := by
  induction pairs with
  | nil => rfl
  | cons hd tl ih => simp [setCmds, setEffect, List.filterMap_cons] at *; exact ih

/-- On the success path of steps 1-3, the verbose attempt reduces to the
step-4 loop: the three external-call effects followed by whatever the loop
does with the map pairs in iteration order. -/
lemma verbose_ok_unfold (w : World) (host t1 t2 : String) (s1 s2 : Nat) (creds : Credentials)
    (hrun : runningInGitpod w = true) (hrole : w.idpAwsRoleArn ≠ "")
    (hurl : w.urlParseResult = .ok host)
    (hget : w.getResult = .response s1 (.tokenObj t1))
    (hpost : w.postResult = .response s2 (.tokenObj t2))
    (hsts : w.stsResult.exitErr = none)
    (hparse : w.stsResult.parsed = .ok creds) :
    signinWithGitpodVerbose w =
      (match (setLoop w (pairsOf w creds) w.initStore).1 with
       | some e =>
         ⟨false, some e,
          [.httpGet ("http://" ++ w.supervisorAddr ++ "/_supervisor/v1/token/gitpod/" ++ host ++ "/"),
           .httpPost ("https://api." ++ host ++ "/gitpod.experimental.v1.IdentityProviderService/GetIDToken")
             ("Bearer " ++ t1) w.gitpodWorkspaceID ["sts.amazonaws.com"],
           .execCmd "aws" (stsArgs w.idpAwsRoleArn (w.gitpodWorkspaceID ++ "-" ++ toString w.timeNowUnix) "")]
            ++ (setLoop w (pairsOf w creds) w.initStore).2.1,
          (setLoop w (pairsOf w creds) w.initStore).2.2⟩
       | none =>
         ⟨true, none,
          [.httpGet ("http://" ++ w.supervisorAddr ++ "/_supervisor/v1/token/gitpod/" ++ host ++ "/"),
           .httpPost ("https://api." ++ host ++ "/gitpod.experimental.v1.IdentityProviderService/GetIDToken")
             ("Bearer " ++ t1) w.gitpodWorkspaceID ["sts.amazonaws.com"],
           .execCmd "aws" (stsArgs w.idpAwsRoleArn (w.gitpodWorkspaceID ++ "-" ++ toString w.timeNowUnix) "")]
            ++ (setLoop w (pairsOf w creds) w.initStore).2.1,
          (setLoop w (pairsOf w creds) w.initStore).2.2⟩) := by
  simp [signinWithGitpodVerbose, hrun, hrole, hurl, hget, hpost, hsts, hparse]

/-- C4: with valid responses from every external call, the verbose flow
performs exactly three `configure set` invocations — one per credential
field, in whatever order Go map iteration chose — and every one of them
carries the fixed profile name `default`. -/
theorem c4_exactly_three_profile_writes (w : World) (host t1 t2 : String) (s1 s2 : Nat)
    (creds : Credentials)
    (hrun : runningInGitpod w = true) (hrole : w.idpAwsRoleArn ≠ "")
    (hurl : w.urlParseResult = .ok host)
    (hget : w.getResult = .response s1 (.tokenObj t1))
    (hpost : w.postResult = .response s2 (.tokenObj t2))
    (hsts : w.stsResult.exitErr = none)
    (hparse : w.stsResult.parsed = .ok creds)
    (hall : ∀ k, (w.setResult k).exitErr = none)
    (horder : w.iterOrder.Perm ["aws_access_key_id", "aws_secret_access_key", "aws_session_token"]) :
    (setCmds (signinWithGitpodVerbose w).trace).Perm
      [["--profile", "default", "aws_access_key_id", creds.accessKeyId],
       ["--profile", "default", "aws_secret_access_key", creds.secretAccessKey],
       ["--profile", "default", "aws_session_token", creds.sessionToken]] := by
  have hloop := setLoop_all_ok w (pairsOf w creds) w.initStore (fun p _ => hall p.1)
  rw [verbose_ok_unfold w host t1 t2 s1 s2 creds hrun hrole hurl hget hpost hsts hparse]
  rw [hloop]
  have hpairs : (pairsOf w creds).Perm (varsOf creds) := by
    have hfm := horder.filterMap fun k => ((varsOf creds).lookup k).map fun v => (k, v)
    have hev : (["aws_access_key_id", "aws_secret_access_key", "aws_session_token"].filterMap
        fun k => ((varsOf creds).lookup k).map fun v => (k, v)) = varsOf creds := rfl
    rw [hev] at hfm
    exact hfm
  show (setCmds (_ ++ List.map (fun p => setEffect p.1 p.2) (pairsOf w creds))).Perm _
  rw [setCmds_append, setCmds_pre3, List.nil_append, setCmds_map_setEffect]
  have hmap := hpairs.map fun p => ["--profile", "default", p.1, p.2]
  simpa [varsOf] using hmap

/-- World for the C4 witness: everything healthy. -/
def w4 : World := baseWorld

/-- C4 witness: concrete healthy run writes the three credential keys. -/
theorem c4_witness :
    w4.iterOrder.Perm ["aws_access_key_id", "aws_secret_access_key", "aws_session_token"] ∧
    (setCmds (signinWithGitpodVerbose w4).trace).Perm
      [["--profile", "default", "aws_access_key_id", "AKIA1"],
       ["--profile", "default", "aws_secret_access_key", "SECRET1"],
       ["--profile", "default", "aws_session_token", "SESS1"]] :=
  ⟨by decide,
   c4_exactly_three_profile_writes w4 "gitpod.example.org" "supervisor-token-1" "id-token-123"
     200 200 ⟨"AKIA1", "SECRET1", "SESS1"⟩ (by decide) (by decide) rfl rfl rfl rfl rfl
     (fun _ => rfl) (by decide)⟩

/-- C10: if the `k`-th `configure set` invocation (in map-iteration order)
fails after the earlier ones succeeded, the attempt returns `(false,
wrapped error)`, performs no further `configure set` invocations — but the
keys already written stay in the profile store: there is no rollback. -/
theorem c10_failed_write_keeps_earlier_keys (w : World) (host t1 t2 : String) (s1 s2 : Nat)
    (creds : Credentials) (okPairs restPairs : List (String × String)) (bk bv e : String)
    (hrun : runningInGitpod w = true) (hrole : w.idpAwsRoleArn ≠ "")
    (hurl : w.urlParseResult = .ok host)
    (hget : w.getResult = .response s1 (.tokenObj t1))
    (hpost : w.postResult = .response s2 (.tokenObj t2))
    (hsts : w.stsResult.exitErr = none)
    (hparse : w.stsResult.parsed = .ok creds)
    (hsplit : pairsOf w creds = okPairs ++ (bk, bv) :: restPairs)
    (hok : ∀ p ∈ okPairs, (w.setResult p.1).exitErr = none)
    (hbad : (w.setResult bk).exitErr = some e)
    (hnd : ((okPairs ++ (bk, bv) :: restPairs).map Prod.fst).Nodup) :
    (signinWithGitpodVerbose w).didSignIn = false ∧
    (signinWithGitpodVerbose w).err =
      some (.wrap "" (.base e) (": " ++ (w.setResult bk).out)) ∧
    setCmds (signinWithGitpodVerbose w).trace =
      okPairs.map (fun p => ["--profile", "default", p.1, p.2])
        ++ [["--profile", "default", bk, bv]] ∧
    ∀ p ∈ okPairs, (signinWithGitpodVerbose w).store p.1 = some p.2 := by
  have hloop := setLoop_fails w bk bv e hbad okPairs restPairs w.initStore hok
  rw [verbose_ok_unfold w host t1 t2 s1 s2 creds hrun hrole hurl hget hpost hsts hparse]
  rw [hsplit, hloop]
  have hndok : (okPairs.map Prod.fst).Nodup := by
    rw [List.map_append] at hnd
    exact hnd.of_append_left
  refine ⟨rfl, rfl, ?_, ?_⟩
  · show setCmds (_ ++ (okPairs.map (fun p => setEffect p.1 p.2) ++ [setEffect bk bv])) = _
    rw [setCmds_append, setCmds_pre3, List.nil_append, setCmds_append,
        setCmds_map_setEffect, setCmds_setEffect_singleton]
  · intro p hp
    obtain ⟨k, v⟩ := p
    exact foldl_storeSet_mem okPairs w.initStore k v hndok hp

/-- World for the C10 witness: the write of `aws_secret_access_key`
fails, the other two succeed, standard iteration order. -/
def w10 : World :=
  { baseWorld with
    setResult := fun k =>
      if k = "aws_secret_access_key" then { out := "boom", exitErr := some "exit status 1" }
      else { out := "", exitErr := none } }

/-- C10 witness: the second write fails; the first key stays written, the
third write never happens. -/
theorem c10_witness :
    pairsOf w10 ⟨"AKIA1", "SECRET1", "SESS1"⟩ =
      [("aws_access_key_id", "AKIA1")] ++
        ("aws_secret_access_key", "SECRET1") :: [("aws_session_token", "SESS1")] ∧
    ((signinWithGitpodVerbose w10).didSignIn = false ∧
      (signinWithGitpodVerbose w10).err =
        some (.wrap "" (.base "exit status 1")
          (": " ++ (w10.setResult "aws_secret_access_key").out)) ∧
      setCmds (signinWithGitpodVerbose w10).trace =
        [("aws_access_key_id", "AKIA1")].map
            (fun p => ["--profile", "default", p.1, p.2])
          ++ [["--profile", "default", "aws_secret_access_key", "SECRET1"]] ∧
      ∀ p ∈ [("aws_access_key_id", "AKIA1")],
        (signinWithGitpodVerbose w10).store p.1 = some p.2) :=
  ⟨rfl,
   c10_failed_write_keeps_earlier_keys w10 "gitpod.example.org" "supervisor-token-1"
     "id-token-123" 200 200 ⟨"AKIA1", "SECRET1", "SESS1"⟩
     [("aws_access_key_id", "AKIA1")] [("aws_session_token", "SESS1")]
     "aws_secret_access_key" "SECRET1" "exit status 1"
     (by decide) (by decide) rfl rfl rfl rfl rfl rfl
     (by decide) (by decide) (by decide)⟩

end IdpAws
